import Mathlib

/-!
Shallow embedding of `jsonrpc/endpoints_debug.go` (debug-trace endpoints of a
zkEVM JSON-RPC node): the struct-log trace formatter, tracer validation, the
block trace resolver, and the batch trace scatter-gather aggregation logic,
together with theorems settling the specification claims about them.

Transaction and block hashes are modelled as `Nat`; bytes as `Nat`; Go
`(value, error)` multiple returns as pairs of `Option`s; a Go panic as an
outer `Option.none`.
-/

namespace ZkevmDebug

/-- `types.DefaultErrorCode` of the jsonrpc types package. -/
def defaultErrorCode : Int := -32000

/-- A `types.Error` RPC error value (`types.NewRPCError(code, message)`). -/
structure RpcError where
  code : Int
  message : String
deriving DecidableEq, Repr

/-- A Go `error` from the state collaborator: `state.ErrNotFound` or any other. -/
inductive GoErr where
  | notFound
  | other (msg : String)
deriving DecidableEq, Repr

/-- A 32-byte word (`common.Hash`): a byte list of length 32. -/
abbrev Hash : Type := { l : List Nat // l.length = 32 }

/-- The underlying 32 bytes of a hash (`common.Hash.Bytes()`). -/
def Hash.bytes (h : Hash) : List Nat := h.val

/-- Convenience constructor: the hash whose 32 bytes all equal `b % 256`. -/
def h32 (b : Nat) : Hash := ⟨List.replicate 32 (b % 256), List.length_replicate 32 _⟩

/-- One lowercase hex digit, as produced by `encoding/hex`. -/
def hexDigit (n : Nat) : Char :=
  if n < 10 then Char.ofNat (48 + n) else Char.ofNat (87 + n)

/-- Two lowercase hex characters of one byte (`encoding/hex` byte encoding). -/
def byteHex (b : Nat) : List Char := [hexDigit (b / 16 % 16), hexDigit (b % 16)]

/-- `hex.EncodeToString`: two lowercase hex characters per byte. -/
def hexEncode (bs : List Nat) : String := ⟨(bs.map byteHex).flatten⟩

theorem hexEncode_length (bs : List Nat) : (hexEncode bs).length = 2 * bs.length := by
  simp only [hexEncode, String.length]
  induction bs with
  | nil => rfl
  | cons b t ih =>
      simp only [List.map_cons, List.flatten_cons, List.length_append, List.length_cons,
        byteHex, List.length_nil] at *
      omega

/-! ## The memory image

`fakevm.Memory` is not part of the sources under verification, so it is
modelled from the spec. -/

/-- Modelled from the spec: `fakevm.Memory` (the MemoryImage), missing from the
sources — a growable zero-initialized byte buffer; `resize` sets the logical
length (zero-filling newly exposed bytes, truncating if smaller), `write`
requires the buffer to already be large enough, a violation being a fatal
precondition failure. -/
structure Memory where
  store : List Nat
deriving DecidableEq, Repr

/-- `fakevm.NewMemory()`: the empty image. -/
def Memory.new : Memory := ⟨[]⟩

/-- Modelled from the spec: `resize(newSize)` sets the buffer's logical length
to `newSize`, preserving the overlapping prefix, zero-filling newly exposed
bytes and truncating if smaller. -/
def Memory.resize (m : Memory) (size : Nat) : Memory :=
  ⟨m.store.take size ++ List.replicate (size - m.store.length) 0⟩

/-- Modelled from the spec: `write(offset, size, data)` copies exactly `size`
bytes of `data` into `[offset, offset+size)`; the buffer must already be large
enough, and violating that is a fatal precondition failure (`none`). -/
def Memory.set (m : Memory) (offset size : Nat) (value : List Nat) : Option Memory :=
  if size > 0 then
    if offset + size ≤ m.store.length then
      some ⟨m.store.take offset ++ value.take size ++ m.store.drop (offset + size)⟩
    else
      none
  else
    some m

theorem Memory.length_resize (m : Memory) (size : Nat) :
    (m.resize size).store.length = size := by
  simp only [Memory.resize, List.length_append, List.length_take, List.length_replicate]
  omega

theorem Memory.length_set (m m' : Memory) (offset size : Nat) (value : List Nat)
    (hv : size ≤ value.length) (h : m.set offset size value = some m') :
    m'.store.length = m.store.length := by
  unfold Memory.set at h
  split at h
  · split at h
    · cases h
      simp only [List.length_append, List.length_take, List.length_drop]
      omega
    · exact absurd h (by simp)
  · cases h
    rfl

theorem Memory.set_isSome (m : Memory) (offset size : Nat) (value : List Nat)
    (h : offset + size ≤ m.store.length) : (m.set offset size value).isSome := by
  by_cases hs : size > 0
  · simp [Memory.set, hs, h]
  · simp [Memory.set, hs]

/-! ## The trace formatter (`buildStructLogs`) -/

/-- The client-supplied `traceConfig`. -/
structure traceConfig where
  disableStorage : Bool
  disableStack : Bool
  enableMemory : Bool
  enableReturnData : Bool
  tracer : Option String
  tracerConfig : Option String
deriving DecidableEq, Repr

/-- `defaultTraceConfig`: all filters off, no tracer. -/
def defaultTraceConfig : traceConfig :=
  { disableStorage := false
    disableStack := false
    enableMemory := false
    enableReturnData := false
    tracer := none
    tracerConfig := none }

/-- `instrumentation.StructLog`: one raw VM execution step as supplied by the
execution collaborator. Stack entries are `*big.Int` (possibly nil). -/
structure StructLog where
  pc : Nat
  op : String
  gas : Nat
  gasCost : Nat
  depth : Int
  err : Option String
  stack : List (Option Int)
  memory : List Nat
  memoryOffset : Nat
  memorySize : Nat
  storage : List (Hash × Hash)
  refundCounter : Nat
deriving DecidableEq, Repr

/-- `StructLogRes`: one client-visible structured log entry; `none` in an
optional field models an omitted (nil-pointer) JSON field. -/
structure StructLogRes where
  pc : Nat
  op : String
  gas : Nat
  gasCost : Nat
  depth : Int
  error : String
  stack : Option (List Int)
  memory : Option (List String)
  storage : Option (List (String × String))
  refundCounter : Nat
deriving DecidableEq, Repr

/-- `structLog.Err.Error()` when non-nil, else the empty string. -/
def errString : Option String → String
  | none => ""
  | some msg => msg

/-- One 32-byte chunk starting at the front of `data`: `make([]byte, 32)`
followed by `copy`, so the tail is zero-padded on the right when short. -/
def chunk32 (data : List Nat) : List Nat :=
  data.take 32 ++ List.replicate (32 - (data.take 32).length) 0

/-- The loop `for i := 0; i < len; i += 32` of `buildStructLogs`: hex-encode
each fixed 32-byte chunk of the snapshot, the last chunk zero-padded. -/
def memoryChunks (data : List Nat) : List String :=
  (List.range ((data.length + 31) / 32)).map fun i => hexEncode (chunk32 (data.drop (32 * i)))

/-- The stack field construction: entries are appended only when non-nil. -/
def stackPart (cfg : traceConfig) (s : StructLog) : Option (List Int) :=
  if cfg.disableStack then none else some (s.stack.filterMap id)

/-- The storage field construction: present only when storage is enabled and
the step carries at least one write. -/
def storagePart (cfg : traceConfig) (s : StructLog) : Option (List (String × String)) :=
  if !cfg.disableStorage && s.storage.length > 0 then
    some (s.storage.map fun kv => (hexEncode kv.1.bytes, hexEncode kv.2.bytes))
  else
    none

/-- The memory handling of one retained step: resize to the reported size,
apply the step's write if non-empty (`none` = fatal out-of-bounds write), then
either render the snapshot in 32-byte chunks or, on size 0, emit an empty list
and restart from a fresh image. Returns the memory field and the image carried
to the next step. -/
def memoryPart (cfg : traceConfig) (mem : Memory) (s : StructLog) :
    Option (Option (List String) × Memory) :=
  if cfg.enableMemory then
    let m1 := mem.resize s.memorySize
    let m2 := if s.memory.length > 0 then m1.set s.memoryOffset s.memory.length s.memory
              else some m1
    m2.map fun m2 =>
      if s.memorySize > 0 then
        (some (memoryChunks m2.store), m2)
      else
        (some [], Memory.new)
  else
    some (none, mem)

/-- Formatting of one retained (not skipped) step, with `op` already renamed. -/
def processRetained (cfg : traceConfig) (mem : Memory) (s : StructLog) (op : String) :
    Option (StructLogRes × Memory) :=
  match memoryPart cfg mem s with
  | none => none
  | some (memField, mem') =>
      some
        ({ pc := s.pc
           op := op
           gas := s.gas
           gasCost := s.gasCost
           depth := s.depth
           error := errString s.err
           stack := stackPart cfg s
           memory := memField
           storage := storagePart cfg s
           refundCounter := s.refundCounter }, mem')

/-- One iteration of the `buildStructLogs` loop: rename `SHA3`, skip a `STOP`
at pc 0 (`continue`), otherwise format the step. `none` models the fatal
out-of-bounds memory write; the inner `Option` is the produced entry. -/
def stepStructLog (cfg : traceConfig) (mem : Memory) (s : StructLog) :
    Option (Option StructLogRes × Memory) :=
  if s.op = "SHA3" then
    (processRetained cfg mem s "KECCAK256").map fun r => (some r.1, r.2)
  else if s.op = "STOP" ∧ s.pc = 0 then
    some (none, mem)
  else
    (processRetained cfg mem s s.op).map fun r => (some r.1, r.2)

/-- `structLogs = append(structLogs, structLogRes)` for a retained step, the
unchanged accumulator for a skipped one. -/
def consStructLog (e : Option StructLogRes) (tail : List StructLogRes) : List StructLogRes :=
  match e with
  | some entry => entry :: tail
  | none => tail

/-- The `buildStructLogs` loop threading the memory image through the steps. -/
def buildStructLogsAux (cfg : traceConfig) : Memory → List StructLog → Option (List StructLogRes)
  | _, [] => some []
  | mem, s :: rest =>
      (stepStructLog cfg mem s).bind fun em =>
        (buildStructLogsAux cfg em.2 rest).map fun tail => consStructLog em.1 tail

/-- `DebugEndpoints.buildStructLogs`: fold the raw steps into structured log
entries, starting from `fakevm.NewMemory()`. -/
def buildStructLogs (stateStructLogs : List StructLog) (cfg : traceConfig) :
    Option (List StructLogRes) :=
  buildStructLogsAux cfg Memory.new stateStructLogs

/-! ## Tracer validation -/

/-- `strings.Contains(s, sub)`: `sub` occurs as a contiguous substring of `s`. -/
def strContains (s sub : String) : Bool := decide (sub.data <:+: s.data)

/-- `isBuiltInTracer`: the `switch` over the fixed closed set of built-in
tracer names. -/
def isBuiltInTracer (tracer : String) : Bool :=
  tracer == "callTracer" || tracer == "4byteTracer" ||
    tracer == "prestateTracer" || tracer == "noopTracer"

/-- `isJSCustomTracer`: the script contains both `result` and `fault`. -/
def isJSCustomTracer (tracer : String) : Bool :=
  strContains tracer "result" && strContains tracer "fault"

/-- The rejection guard of `buildTraceTransaction`:
`Tracer != nil && *Tracer != "" && !isBuiltInTracer(...) && !isJSCustomTracer(...)`. -/
def tracerRejected (tracer : Option String) : Bool :=
  match tracer with
  | none => false
  | some t => t != "" && !isBuiltInTracer t && !isJSCustomTracer t

/-! ## The single-transaction trace resolver (`buildTraceTransaction`) -/

/-- `state.TraceConfig`, copied field by field from the request config. -/
structure StateTraceConfig where
  disableStorage : Bool
  disableStack : Bool
  enableMemory : Bool
  enableReturnData : Bool
  tracer : Option String
  tracerConfig : Option String
deriving DecidableEq, Repr

/-- The result of `state.DebugTransaction`. -/
structure DebugResult where
  gasUsed : Nat
  returnValue : List Nat
  executorTraceResult : String
  structLogs : List StructLog

/-- A transaction receipt; `status = 0` is `ethTypes.ReceiptStatusFailed`. -/
structure Receipt where
  status : Nat

/-- The state collaborator interface used by `buildTraceTransaction`. -/
structure StateDb where
  debugTransaction : Nat → StateTraceConfig → Except GoErr DebugResult
  getTransactionReceipt : Nat → Except GoErr Receipt

/-- One call made to the state collaborator, recorded for instrumentation. -/
inductive CollabCall where
  | debugTransaction (hash : Nat)
  | getReceipt (hash : Nat)
deriving DecidableEq, Repr

/-- The value returned by `buildTraceTransaction` on success: either the opaque
executor result of a named tracer, or the structured `traceTransactionResponse`. -/
inductive TraceResponse where
  | executorResult (raw : String)
  | structured (gas : Nat) (failed : Bool) (returnValue : Option String)
      (structLogs : List StructLogRes)
deriving DecidableEq, Repr

/-- `rpcErrorResponse(DefaultErrorCode, "invalid tracer", nil)`. -/
def invalidTracerError : RpcError := ⟨defaultErrorCode, "invalid tracer"⟩

/-- `DebugEndpoints.buildTraceTransaction`, instrumented with the ordered list
of collaborator calls it performs; the outer `none` models the fatal memory
write panic inside `buildStructLogs`. -/
def buildTraceTransaction (db : StateDb) (hash : Nat) (cfg : Option traceConfig) :
    Option (Except RpcError TraceResponse × List CollabCall) :=
  let traceCfg := cfg.getD defaultTraceConfig
  if tracerRejected traceCfg.tracer then
    some (.error invalidTracerError, [])
  else
    let stCfg : StateTraceConfig :=
      { disableStack := traceCfg.disableStack
        disableStorage := traceCfg.disableStorage
        enableMemory := traceCfg.enableMemory
        enableReturnData := traceCfg.enableReturnData
        tracer := traceCfg.tracer
        tracerConfig := traceCfg.tracerConfig }
    match db.debugTransaction hash stCfg with
    | .error .notFound =>
        some (.error ⟨defaultErrorCode, "transaction not found"⟩, [.debugTransaction hash])
    | .error (.other _) =>
        some (.error ⟨defaultErrorCode, "failed to get trace"⟩, [.debugTransaction hash])
    | .ok result =>
        if (match stCfg.tracer with
            | some t => t != "" && result.executorTraceResult.length != 0
            | none => false) then
          some (.ok (.executorResult result.executorTraceResult), [.debugTransaction hash])
        else
          match db.getTransactionReceipt hash with
          | .error _ =>
              some (.error ⟨defaultErrorCode, "failed to tx receipt"⟩,
                    [.debugTransaction hash, .getReceipt hash])
          | .ok receipt =>
              let failed := receipt.status == 0
              let returnValue :=
                if stCfg.enableReturnData then some (hexEncode result.returnValue) else none
              match buildStructLogs result.structLogs traceCfg with
              | none => none
              | some structLogs =>
                  some (.ok (.structured result.gasUsed failed returnValue structLogs),
                        [.debugTransaction hash, .getReceipt hash])

/-! ## The block trace resolver -/

/-- A wrapper `traceBlockTransactionResponse{Result: ...}`. -/
structure traceBlockTransactionResponse where
  result : Option TraceResponse
deriving DecidableEq, Repr

/-- The error created by `buildTraceBlock` when one transaction's trace fails:
`rpcErrorResponse(DefaultErrorCode, "failed to get trace for transaction %v", err)`. -/
def traceBlockTxError (hash : Nat) : RpcError :=
  ⟨defaultErrorCode, "failed to get trace for transaction " ++ toString hash⟩

/-- `DebugEndpoints.buildTraceBlock`: resolve each transaction in order,
aborting on the first failure with a fresh wrapped error (and nil results). The
resolver returns a Go-style `(value, error)` pair. -/
def buildTraceBlock (resolve : Nat → Option TraceResponse × Option RpcError) :
    List Nat → Option (List traceBlockTransactionResponse) × Option RpcError
  | [] => (some [], none)
  | hash :: rest =>
      match resolve hash with
      | (_, some _) => (none, some (traceBlockTxError hash))
      | (res, none) =>
          match buildTraceBlock resolve rest with
          | (some tail, none) => (some (⟨res⟩ :: tail), none)
          | other => other

/-- Outcome of `state.GetL2BlockByNumber` / `GetL2BlockByHash`: the block's
transaction hashes, a not-found error, or another lookup failure. -/
inductive BlockLookup where
  | found (txs : List Nat)
  | notFound
  | failed (msg : String)

/-- `DebugEndpoints.TraceBlockByNumber` (inside its db-tx scope). The `failed`
lookup case dereferences a nil block in Go, modelled as the outer `none`. On
the `found` path the code checks the stale block-lookup error variable `err`
(nil here) instead of the `rpcErr` returned by `buildTraceBlock`, so that guard
never fires. -/
def TraceBlockByNumber (getL2BlockByNumber : Nat → BlockLookup)
    (resolve : Nat → Option TraceResponse × Option RpcError) (number : Nat) :
    Option (Option (List traceBlockTransactionResponse) × Option RpcError) :=
  match getL2BlockByNumber number with
  | .notFound =>
      some (none, some ⟨defaultErrorCode, "block #" ++ toString number ++ " not found"⟩)
  | .failed _ => none
  | .found txs =>
      let r := buildTraceBlock resolve txs
      let err : Option GoErr := none
      some (if err ≠ none then (none, r.2) else (r.1, none))

/-- `DebugEndpoints.TraceBlockByHash` (inside its db-tx scope); identical
control flow to `TraceBlockByNumber`, including the stale `err` check. -/
def TraceBlockByHash (getL2BlockByHash : Nat → BlockLookup)
    (resolve : Nat → Option TraceResponse × Option RpcError) (hash : Nat) :
    Option (Option (List traceBlockTransactionResponse) × Option RpcError) :=
  match getL2BlockByHash hash with
  | .notFound =>
      some (none, some ⟨defaultErrorCode, "block " ++ toString hash ++ " not found"⟩)
  | .failed _ => none
  | .found txs =>
      let r := buildTraceBlock resolve txs
      let err : Option GoErr := none
      some (if err ≠ none then (none, r.2) else (r.1, none))

/-! ## The batch trace aggregator (`TraceBatchByNumber`) -/

/-- One `{txHash, result}` pair of the batch response. -/
structure traceBatchTransactionResponse where
  txHash : Nat
  result : String
deriving DecidableEq, Repr

/-- Outcome of one remote `client.JSONRPCCall`: a transport failure, an
RPC-level error response (`res.Error != nil`), or a successful result. -/
inductive RemoteCallOutcome where
  | transportError (msg : String)
  | rpcFailure (code : Int) (msg : String)
  | success (result : String)
deriving DecidableEq, Repr

/-- The contribution of one `loadTraceByTxHash` task to the responses channel:
transport errors and RPC-level errors are logged and contribute nothing. -/
def loadTraceByTxHash (outcome : RemoteCallOutcome) (txHash : Nat) :
    Option traceBatchTransactionResponse :=
  match outcome with
  | .transportError _ => none
  | .rpcFailure _ _ => none
  | .success result => some ⟨txHash, result⟩

/-- The content of the responses channel once every dispatched task has
finished: one entry per receipt whose remote call succeeded. -/
def traceBatchResponses (call : Nat → RemoteCallOutcome) (receipts : List Nat) :
    List traceBatchTransactionResponse :=
  receipts.filterMap fun h => loadTraceByTxHash (call h) h

/-- `rpcErrorResponse(DefaultErrorCode, "failed to get traces for batch %v: timeout reached", nil)`. -/
def batchTimeoutError (batchNumber : Nat) : RpcError :=
  ⟨defaultErrorCode, "failed to get traces for batch " ++ toString batchNumber ++
    ": timeout reached"⟩

/-- The tail of `TraceBatchByNumber` after `waitTimeout`: on timeout return the
single timeout error without reading the responses channel; otherwise drain the
channel into the `traces` array and return it with no error. `timedOut` is the
value `waitTimeout(&wg, timeout)` returned; `collected` is the channel content. -/
def traceBatchAggregate (timedOut : Bool) (batchNumber : Nat)
    (collected : List traceBatchTransactionResponse) :
    Option (List traceBatchTransactionResponse) × Option RpcError :=
  if timedOut then
    (none, some (batchTimeoutError batchNumber))
  else
    (some collected, none)

/-- `TraceBatchByNumber` for a batch whose tasks all finished in time
(`waitTimeout` returned false): the aggregation over the collected responses. -/
def TraceBatchByNumberCompleted (call : Nat → RemoteCallOutcome) (batchNumber : Nat)
    (receipts : List Nat) :
    Option (List traceBatchTransactionResponse) × Option RpcError :=
  traceBatchAggregate false batchNumber (traceBatchResponses call receipts)

/-- The reconstructed fan-out target of `TraceBatchByNumber` (`url.URL` fields
as assembled from the inbound request). -/
structure urlParts where
  scheme : String
  host : String
  path : String
deriving DecidableEq, Repr

/-- The URL construction of `TraceBatchByNumber`: scheme defaults to `https`,
overridden by the inbound URL scheme when non-empty; host and path are echoed
from the inbound request. -/
def buildRpcURL (reqURLScheme reqHost reqURLPath : String) : urlParts :=
  let scheme := if reqURLScheme ≠ "" then reqURLScheme else "https"
  { scheme := scheme, host := reqHost, path := reqURLPath }

/-! ## Helper lemmas about the formatter -/

theorem chunk32_length (data : List Nat) : (chunk32 data).length = 32 := by
  simp only [chunk32, List.length_append, List.length_take, List.length_replicate]
  omega

theorem memoryChunks_length (data : List Nat) :
    (memoryChunks data).length = (data.length + 31) / 32 := by
  simp [memoryChunks]

theorem memoryChunks_item_length (data : List Nat) :
    ∀ c ∈ memoryChunks data, c.length = 64 := by
  intro c hc
  simp only [memoryChunks, List.mem_map] at hc
  obtain ⟨i, -, rfl⟩ := hc
  rw [hexEncode_length, chunk32_length]

theorem memoryPart_enabled (cfg : traceConfig) (mem : Memory) (s : StructLog)
    (f : Option (List String)) (m' : Memory)
    (hen : cfg.enableMemory = true) (h : memoryPart cfg mem s = some (f, m')) :
    (s.memorySize = 0 → f = some [] ∧ m' = Memory.new) ∧
    (0 < s.memorySize → f = some (memoryChunks m'.store) ∧ m'.store.length = s.memorySize) := by
  simp only [memoryPart, hen, if_true, Option.map_eq_some'] at h
  obtain ⟨m2, hm2, hpair⟩ := h
  have hlen : m2.store.length = s.memorySize := by
    by_cases hw : s.memory.length > 0
    · rw [if_pos hw] at hm2
      rw [Memory.length_set _ _ _ _ _ (le_refl _) hm2, Memory.length_resize]
    · rw [if_neg hw] at hm2
      cases hm2
      exact Memory.length_resize _ _
  constructor
  · intro hz
    rw [hz] at hpair
    simp only [lt_irrefl, if_neg (lt_irrefl 0)] at hpair
    exact ⟨(Prod.ext_iff.mp hpair.symm).1, (Prod.ext_iff.mp hpair.symm).2⟩
  · intro hpos
    rw [if_pos hpos] at hpair
    obtain ⟨h1, h2⟩ := Prod.ext_iff.mp hpair.symm
    subst h2
    exact ⟨h1, hlen⟩

theorem memoryPart_disabled (cfg : traceConfig) (mem : Memory) (s : StructLog)
    (hen : cfg.enableMemory = false) : memoryPart cfg mem s = some (none, mem) := by
  simp [memoryPart, hen]

theorem memoryPart_isSome (cfg : traceConfig) (mem : Memory) (s : StructLog)
    (hb : s.memoryOffset + s.memory.length ≤ s.memorySize) :
    (memoryPart cfg mem s).isSome := by
  by_cases hen : cfg.enableMemory
  · simp only [memoryPart, hen, if_true, Option.isSome_map']
    by_cases hw : s.memory.length > 0
    · rw [if_pos hw]
      apply Memory.set_isSome
      rw [Memory.length_resize]
      exact hb
    · rw [if_neg hw]
      rfl
  · simp [memoryPart, hen]

theorem processRetained_fields (cfg : traceConfig) (mem : Memory) (s : StructLog)
    (op : String) (e : StructLogRes) (m' : Memory)
    (h : processRetained cfg mem s op = some (e, m')) :
    e.pc = s.pc ∧ e.op = op ∧ e.gas = s.gas ∧ e.gasCost = s.gasCost ∧ e.depth = s.depth ∧
    e.error = errString s.err ∧ e.refundCounter = s.refundCounter ∧
    e.stack = stackPart cfg s ∧ e.storage = storagePart cfg s ∧
    memoryPart cfg mem s = some (e.memory, m') := by
  unfold processRetained at h
  cases hm : memoryPart cfg mem s with
  | none => rw [hm] at h; cases h
  | some fm =>
      obtain ⟨f, mm⟩ := fm
      rw [hm] at h
      simp only [Option.some_inj, Prod.ext_iff] at h
      obtain ⟨he, hmm⟩ := h
      subst hmm
      subst he
      exact ⟨rfl, rfl, rfl, rfl, rfl, rfl, rfl, rfl, rfl, rfl⟩

theorem processRetained_isSome (cfg : traceConfig) (mem : Memory) (s : StructLog)
    (op : String) (hm : (memoryPart cfg mem s).isSome) :
    (processRetained cfg mem s op).isSome := by
  unfold processRetained
  cases hmp : memoryPart cfg mem s with
  | none => rw [hmp] at hm; cases hm
  | some fm => rfl

theorem stepStructLog_some_entry (cfg : traceConfig) (mem : Memory) (s : StructLog)
    (e : StructLogRes) (m' : Memory) (h : stepStructLog cfg mem s = some (some e, m')) :
    processRetained cfg mem s (if s.op = "SHA3" then "KECCAK256" else s.op) = some (e, m') := by
  unfold stepStructLog at h
  by_cases h3 : s.op = "SHA3"
  · rw [if_pos h3] at h
    rw [if_pos h3]
    cases hp : processRetained cfg mem s "KECCAK256" with
    | none => rw [hp] at h; cases h
    | some r =>
        rw [hp] at h
        simp only [Option.map_some', Option.some_inj, Prod.ext_iff, Option.some_inj] at h
        obtain ⟨he, hm⟩ := h
        rw [← he, ← hm]
  · rw [if_neg h3] at h
    rw [if_neg h3]
    by_cases hd : s.op = "STOP" ∧ s.pc = 0
    · rw [if_pos hd] at h
      simp at h
    · rw [if_neg hd] at h
      cases hp : processRetained cfg mem s s.op with
      | none => rw [hp] at h; cases h
      | some r =>
          rw [hp] at h
          simp only [Option.map_some', Option.some_inj, Prod.ext_iff, Option.some_inj] at h
          obtain ⟨he, hm⟩ := h
          rw [← he, ← hm]

theorem stepStructLog_dropped (cfg : traceConfig) (mem : Memory) (s : StructLog)
    (hd : s.op = "STOP" ∧ s.pc = 0) : stepStructLog cfg mem s = some (none, mem) := by
  unfold stepStructLog
  rw [if_neg (by rw [hd.1]; decide), if_pos hd]

theorem stepStructLog_isSome (cfg : traceConfig) (mem : Memory) (s : StructLog)
    (hm : (memoryPart cfg mem s).isSome) : (stepStructLog cfg mem s).isSome := by
  unfold stepStructLog
  by_cases h3 : s.op = "SHA3"
  · rw [if_pos h3, Option.isSome_map']
    exact processRetained_isSome cfg mem s _ hm
  · rw [if_neg h3]
    by_cases hd : s.op = "STOP" ∧ s.pc = 0
    · rw [if_pos hd]; rfl
    · rw [if_neg hd, Option.isSome_map']
      exact processRetained_isSome cfg mem s _ hm

/-- The skip condition of the loop: a `STOP` artifact at pc 0. -/
def isDroppedStep (s : StructLog) : Bool := decide (s.op = "STOP" ∧ s.pc = 0)

/-- The always-populated scalar fields of an output entry. -/
def resProj (e : StructLogRes) : Nat × String × Nat × Nat × Int :=
  (e.pc, e.op, e.gas, e.gasCost, e.depth)

/-- The same scalar fields as they must appear for a raw step (op renamed). -/
def stepProj (s : StructLog) : Nat × String × Nat × Nat × Int :=
  (s.pc, if s.op = "SHA3" then "KECCAK256" else s.op, s.gas, s.gasCost, s.depth)

theorem stepStructLog_retained (cfg : traceConfig) (mem : Memory) (s : StructLog)
    (e : Option StructLogRes) (m' : Memory) (hd : ¬(s.op = "STOP" ∧ s.pc = 0))
    (h : stepStructLog cfg mem s = some (e, m')) :
    ∃ entry, e = some entry ∧ resProj entry = stepProj s := by
  unfold stepStructLog at h
  by_cases h3 : s.op = "SHA3"
  · rw [if_pos h3] at h
    cases hp : processRetained cfg mem s "KECCAK256" with
    | none => rw [hp] at h; cases h
    | some r =>
        rw [hp] at h
        simp only [Option.map_some', Option.some_inj, Prod.ext_iff] at h
        obtain ⟨he, -⟩ := h
        refine ⟨r.1, he.symm, ?_⟩
        obtain ⟨h1, h2, hg, hc, hdep, -⟩ :=
          processRetained_fields cfg mem s "KECCAK256" r.1 r.2 (by rw [hp])
        simp [resProj, stepProj, h1, h2, hg, hc, hdep, h3]
  · rw [if_neg h3, if_neg hd] at h
    cases hp : processRetained cfg mem s s.op with
    | none => rw [hp] at h; cases h
    | some r =>
        rw [hp] at h
        simp only [Option.map_some', Option.some_inj, Prod.ext_iff] at h
        obtain ⟨he, -⟩ := h
        refine ⟨r.1, he.symm, ?_⟩
        obtain ⟨h1, h2, hg, hc, hdep, -⟩ :=
          processRetained_fields cfg mem s s.op r.1 r.2 (by rw [hp])
        simp [resProj, stepProj, h1, h2, hg, hc, hdep, h3]

theorem buildStructLogsAux_proj (cfg : traceConfig) :
    ∀ (steps : List StructLog) (mem : Memory) (logs : List StructLogRes),
      buildStructLogsAux cfg mem steps = some logs →
      logs.map resProj = (steps.filter fun s => !isDroppedStep s).map stepProj := by
  intro steps
  induction steps with
  | nil =>
      intro mem logs h
      simp only [buildStructLogsAux, Option.some_inj] at h
      subst h
      rfl
  | cons s rest ih =>
      intro mem logs h
      unfold buildStructLogsAux at h
      cases hstep : stepStructLog cfg mem s with
      | none => rw [hstep] at h; cases h
      | some pr =>
          obtain ⟨e, m'⟩ := pr
          rw [hstep] at h
          have h2 : (buildStructLogsAux cfg m' rest).map (consStructLog e) = some logs := h
          cases htail : buildStructLogsAux cfg m' rest with
          | none => rw [htail] at h2; cases h2
          | some tail =>
              rw [htail] at h2
              simp only [Option.map_some', Option.some_inj] at h2
              have hrec := ih m' tail htail
              by_cases hd : s.op = "STOP" ∧ s.pc = 0
              · have hdropped : isDroppedStep s = true := by
                  simp [isDroppedStep, hd.1, hd.2]
                rw [stepStructLog_dropped cfg mem s hd] at hstep
                simp only [Option.some_inj, Prod.mk.injEq] at hstep
                obtain ⟨he, -⟩ := hstep
                subst he
                rw [← h2]
                simp [List.filter_cons, hdropped, consStructLog, hrec]
              · have hkept : isDroppedStep s = false := by
                  simp [isDroppedStep, hd]
                obtain ⟨entry, he, hproj⟩ :=
                  stepStructLog_retained cfg mem s e m' hd hstep
                subst he
                rw [← h2]
                simp [List.filter_cons, hkept, consStructLog, hproj, hrec]

theorem buildStructLogsAux_total (cfg : traceConfig) :
    ∀ (steps : List StructLog) (mem : Memory),
      (∀ s ∈ steps, s.memoryOffset + s.memory.length ≤ s.memorySize) →
      (buildStructLogsAux cfg mem steps).isSome := by
  intro steps
  induction steps with
  | nil => intro mem _; rfl
  | cons s rest ih =>
      intro mem hb
      unfold buildStructLogsAux
      have hs := stepStructLog_isSome cfg mem s
        (memoryPart_isSome cfg mem s (hb s (by simp)))
      cases hstep : stepStructLog cfg mem s with
      | none => rw [hstep] at hs; cases hs
      | some pr =>
          obtain ⟨e, m'⟩ := pr
          have ht := ih m' fun x hx => hb x (by simp [hx])
          show ((buildStructLogsAux cfg m' rest).map (consStructLog e)).isSome = true
          cases htail : buildStructLogsAux cfg m' rest with
          | none => rw [htail] at ht; cases ht
          | some tail => rfl

theorem buildStructLogsAux_total_nomem (cfg : traceConfig) (hen : cfg.enableMemory = false) :
    ∀ (steps : List StructLog) (mem : Memory), (buildStructLogsAux cfg mem steps).isSome := by
  intro steps
  induction steps with
  | nil => intro mem; rfl
  | cons s rest ih =>
      intro mem
      unfold buildStructLogsAux
      have hs := stepStructLog_isSome cfg mem s
        (by rw [memoryPart_disabled cfg mem s hen]; rfl)
      cases hstep : stepStructLog cfg mem s with
      | none => rw [hstep] at hs; cases hs
      | some pr =>
          obtain ⟨e, m'⟩ := pr
          have ht := ih m'
          show ((buildStructLogsAux cfg m' rest).map (consStructLog e)).isSome = true
          cases htail : buildStructLogsAux cfg m' rest with
          | none => rw [htail] at ht; cases ht
          | some tail => rfl

theorem storagePart_char (cfg : traceConfig) (s : StructLog) :
    storagePart cfg s =
      if cfg.disableStorage = false ∧ s.storage ≠ [] then
        some (s.storage.map fun kv => (hexEncode kv.1.bytes, hexEncode kv.2.bytes))
      else none := by
  unfold storagePart
  by_cases h1 : cfg.disableStorage
  · simp [h1]
  · by_cases h2 : s.storage = []
    · simp [h1, h2]
    · simp [h1, h2, List.length_pos]

/-! ## Concrete fixtures used by witnesses and counterexamples -/

/-- A config with memory rendering enabled and nothing disabled. -/
def cfgMem : traceConfig :=
  { disableStorage := false, disableStack := false, enableMemory := true,
    enableReturnData := false, tracer := none, tracerConfig := none }

/-- A step reporting memory size 70 with a write of size 70 at offset 0. -/
def step70 : StructLog :=
  { pc := 2, op := "MSTORE", gas := 100, gasCost := 3, depth := 1, err := none,
    stack := [], memory := List.replicate 70 7, memoryOffset := 0, memorySize := 70,
    storage := [], refundCounter := 0 }

/-- A step whose write `[0, 2)` exceeds its own reported memory size 1. -/
def badStep : StructLog :=
  { pc := 1, op := "ADD", gas := 10, gasCost := 2, depth := 1, err := none,
    stack := [], memory := [0, 0], memoryOffset := 0, memorySize := 1,
    storage := [], refundCounter := 0 }

/-- A step reporting memory size 0. -/
def zeroStep : StructLog :=
  { pc := 3, op := "ADD", gas := 10, gasCost := 2, depth := 1, err := none,
    stack := [], memory := [], memoryOffset := 0, memorySize := 0,
    storage := [], refundCounter := 0 }

/-- The entry produced for `zeroStep` under `cfgMem`. -/
def zeroEntry : StructLogRes :=
  { pc := 3, op := "ADD", gas := 10, gasCost := 2, depth := 1, error := "",
    stack := some [], memory := some [], storage := none, refundCounter := 0 }

/-- A `STOP` step at pc 0: the execution-engine artifact that must be skipped. -/
def stop0Step : StructLog :=
  { pc := 0, op := "STOP", gas := 99, gasCost := 0, depth := 1, err := none,
    stack := [], memory := [], memoryOffset := 0, memorySize := 0,
    storage := [], refundCounter := 0 }

/-- An ordinary step with a raw stack `[4, nil, 9]`. -/
def addStep : StructLog :=
  { pc := 5, op := "ADD", gas := 20, gasCost := 3, depth := 1, err := none,
    stack := [some 4, none, some 9], memory := [], memoryOffset := 0, memorySize := 0,
    storage := [], refundCounter := 0 }

/-- The entry produced for `addStep` under the default config. -/
def addEntry : StructLogRes :=
  { pc := 5, op := "ADD", gas := 20, gasCost := 3, depth := 1, error := "",
    stack := some [4, 9], memory := none, storage := none, refundCounter := 0 }

/-- A step carrying one storage write. -/
def storStep : StructLog :=
  { pc := 8, op := "SSTORE", gas := 50, gasCost := 5, depth := 1, err := none,
    stack := [], memory := [], memoryOffset := 0, memorySize := 0,
    storage := [(h32 1, h32 2)], refundCounter := 0 }

/-- The entry produced for `storStep` under the default config. -/
def storEntry : StructLogRes :=
  { pc := 8, op := "SSTORE", gas := 50, gasCost := 5, depth := 1, error := "",
    stack := some [], memory := none,
    storage := some [(hexEncode (h32 1).bytes, hexEncode (h32 2).bytes)],
    refundCounter := 0 }

/-- A config requesting the unknown tracer `bogus`. -/
def cfgBogus : traceConfig :=
  { defaultTraceConfig with tracer := some "bogus" }

/-- A state collaborator that fails every call; used to show the tracer guard
fires before any collaborator work. -/
def trivialDb : StateDb :=
  { debugTransaction := fun _ _ => .error (.other "offline")
    getTransactionReceipt := fun _ => .error (.other "offline") }

/-- Remote-call oracle for a 5-transaction batch in which the calls for
transactions 2 and 4 fail. -/
def exCall : Nat → RemoteCallOutcome := fun h =>
  if h = 2 then .transportError "connection refused"
  else if h = 4 then .rpcFailure (-32000) "execution error"
  else .success ("trace" ++ toString h)

/-- Observer for C1: the chunk count of each entry's memory field together
with the check that every chunk is a 64-hex-character string. -/
def memShape (r : Option (List StructLogRes)) : Option (List (Option (Nat × Bool))) :=
  r.map fun logs => logs.map fun e =>
    e.memory.map fun ms => (ms.length, ms.all fun c => c.length == 64)

theorem stepStructLog_memstate (cfg : traceConfig) (mem : Memory) (s : StructLog)
    (e : Option StructLogRes) (m' : Memory) (hd : ¬(s.op = "STOP" ∧ s.pc = 0))
    (h : stepStructLog cfg mem s = some (e, m')) :
    ∃ entry, e = some entry ∧
      processRetained cfg mem s (if s.op = "SHA3" then "KECCAK256" else s.op) =
        some (entry, m') := by
  unfold stepStructLog at h
  by_cases h3 : s.op = "SHA3"
  · rw [if_pos h3] at h
    rw [if_pos h3]
    cases hp : processRetained cfg mem s "KECCAK256" with
    | none => rw [hp] at h; cases h
    | some r =>
        rw [hp] at h
        simp only [Option.map_some', Option.some_inj, Prod.mk.injEq] at h
        obtain ⟨he, hm⟩ := h
        refine ⟨r.1, he.symm, ?_⟩
        rw [← hm]
  · rw [if_neg h3, if_neg hd] at h
    rw [if_neg h3]
    cases hp : processRetained cfg mem s s.op with
    | none => rw [hp] at h; cases h
    | some r =>
        rw [hp] at h
        simp only [Option.map_some', Option.some_inj, Prod.mk.injEq] at h
        obtain ⟨he, hm⟩ := h
        refine ⟨r.1, he.symm, ?_⟩
        rw [← hm]

/-! ## The claims -/

/-- C1: with `enableMemory=true`, a step reporting memory size 70 and a write
of size 70 at offset 0 produces a memory field of exactly 3 chunks
(32+32+6 zero-padded to 32), each a 64-hex-character string; in general every
snapshot of length `n` is rendered as `⌈n/32⌉` fixed 32-byte chunks, each a
64-hex-character string, for every snapshot length including non-multiples
of 32. -/
theorem memory_chunk_rendering :
    memShape (buildStructLogs [step70] cfgMem) = some [some (3, true)] ∧
    ∀ data : List Nat, (memoryChunks data).length = (data.length + 31) / 32 ∧
      ((memoryChunks data).all fun c => c.length == 64) = true := by
  refine ⟨by decide, fun data => ⟨memoryChunks_length data, ?_⟩⟩
  rw [List.all_eq_true]
  intro c hc
  simpa using memoryChunks_item_length data c hc

/-- C2 (code-bug evidence): a block whose only transaction fails to resolve.
`buildTraceBlock` does report the per-transaction error, but both
`TraceBlockByNumber` and `TraceBlockByHash` guard the return with the stale
block-lookup variable `err` instead of `rpcErr`, so the endpoints return
success with a nil result `(none, none)` instead of surfacing the error. -/
theorem trace_block_error_swallowed :
    buildTraceBlock (fun _ => (none, some ⟨defaultErrorCode, "execution failed"⟩)) [1] =
      (none, some (traceBlockTxError 1)) ∧
    TraceBlockByNumber (fun _ => .found [1])
      (fun _ => (none, some ⟨defaultErrorCode, "execution failed"⟩)) 5 = some (none, none) ∧
    TraceBlockByHash (fun _ => .found [1])
      (fun _ => (none, some ⟨defaultErrorCode, "execution failed"⟩)) 7 = some (none, none) := by
  refine ⟨?_, ?_, ?_⟩ <;> decide

/-- C3 (amended): with the spec-modelled MemoryImage, after every retained step
processed with `enableMemory=true` the image's declared length equals that
step's reported memory size; and whenever every step's write fits inside its
own reported memory size (`memoryOffset + |memory| ≤ memorySize`), the
formatting pass performs no out-of-bounds write (it completes). For fully
arbitrary step sequences the in-bounds part is false — see the
counterexample. -/
theorem memory_image_invariant_amended :
    (∀ (cfg : traceConfig) (m : Memory) (s : StructLog) (e : Option StructLogRes) (m' : Memory),
        cfg.enableMemory = true → ¬(s.op = "STOP" ∧ s.pc = 0) →
        stepStructLog cfg m s = some (e, m') → m'.store.length = s.memorySize) ∧
    ∀ (cfg : traceConfig) (steps : List StructLog),
      (∀ s ∈ steps, s.memoryOffset + s.memory.length ≤ s.memorySize) →
      (buildStructLogs steps cfg).isSome := by
  constructor
  · intro cfg m s e m' hen hd h
    obtain ⟨entry, -, hp⟩ := stepStructLog_memstate cfg m s e m' hd h
    obtain ⟨-, -, -, -, -, -, -, -, -, hmp⟩ := processRetained_fields cfg m s _ entry m' hp
    rcases Nat.eq_zero_or_pos s.memorySize with hz | hpos
    · obtain ⟨-, hm'⟩ := (memoryPart_enabled cfg m s entry.memory m' hen hmp).1 hz
      rw [hm', hz]
      rfl
    · exact ((memoryPart_enabled cfg m s entry.memory m' hen hmp).2 hpos).2
  · intro cfg steps hb
    exact buildStructLogsAux_total cfg steps Memory.new hb

/-- C3 counterexample: a single step reporting memory size 1 but carrying a
write of 2 bytes at offset 0 makes the write escape the declared length: the
spec-modelled write hits its fatal precondition failure, refuting the claim
for arbitrary collaborator-supplied step sequences. -/
theorem memory_image_invariant_counterexample :
    (Memory.new.resize 1).set 0 2 [0, 0] = none ∧
    buildStructLogs [badStep] cfgMem = none := by
  exact ⟨by decide, by decide⟩

theorem memory_image_invariant_amended_witness :
    (⟨List.replicate 70 7⟩ : Memory).store.length = step70.memorySize ∧
    (buildStructLogs [step70] cfgMem).isSome :=
  ⟨memory_image_invariant_amended.1 cfgMem Memory.new step70
      (some { pc := 2, op := "MSTORE", gas := 100, gasCost := 3, depth := 1, error := "",
              stack := some [], memory := some (memoryChunks (List.replicate 70 7)),
              storage := none, refundCounter := 0 })
      ⟨List.replicate 70 7⟩ rfl (by decide) (by decide),
   memory_image_invariant_amended.2 cfgMem [step70] (by decide)⟩

/-- C4: once `waitTimeout` reports that the 10-minute deadline elapsed before
all dispatched tasks completed, the batch request returns the single timeout
error and no result pairs, whatever responses had already been collected. -/
theorem batch_timeout_all_or_nothing :
    ∀ (batchNumber : Nat) (collected : List traceBatchTransactionResponse),
      traceBatchAggregate true batchNumber collected =
        (none, some (batchTimeoutError batchNumber)) :=
  fun _ _ => rfl

/-- C5: when the batch completes before the deadline, failed remote calls
(transport or RPC-level) contribute nothing and do not fail the batch: the
result is exactly the `{txHash, result}` pairs of the successful calls, with no
error — concretely, 5 transactions with 2 failures yield exactly the 3
successful pairs. -/
theorem batch_partial_failures_tolerated :
    TraceBatchByNumberCompleted exCall 9 [1, 2, 3, 4, 5] =
      (some [⟨1, "trace1"⟩, ⟨3, "trace3"⟩, ⟨5, "trace5"⟩], none) ∧
    ∀ (call : Nat → RemoteCallOutcome) (batchNumber : Nat) (receipts : List Nat),
      TraceBatchByNumberCompleted call batchNumber receipts =
        (some (receipts.filterMap fun h =>
          match call h with
          | .success r => some ⟨h, r⟩
          | .transportError _ => none
          | .rpcFailure _ _ => none), none) := by
  constructor
  · decide
  · intro call batchNumber receipts
    have hfun : (fun h => loadTraceByTxHash (call h) h) =
        (fun h => match call h with
          | .success r => some (⟨h, r⟩ : traceBatchTransactionResponse)
          | .transportError _ => none
          | .rpcFailure _ _ => none) := by
      funext h
      cases call h <;> rfl
    unfold TraceBatchByNumberCompleted traceBatchAggregate traceBatchResponses
    rw [hfun, if_neg (by decide)]

/-- C6: a requested tracer is accepted iff it is absent, empty, one of the four
built-in names, or contains both substrings `result` and `fault`; any other
non-empty tracer is rejected with the invalid-tracer error before any call is
made to the state collaborator. -/
theorem tracer_validation :
    (∀ t : Option String, tracerRejected t = false ↔
        (t = none ∨ t = some "" ∨ ∃ s, t = some s ∧
          (s = "callTracer" ∨ s = "4byteTracer" ∨ s = "prestateTracer" ∨ s = "noopTracer" ∨
            ("result".data <:+: s.data ∧ "fault".data <:+: s.data)))) ∧
    ∀ (db : StateDb) (hash : Nat) (cfg : traceConfig),
      tracerRejected cfg.tracer = true →
      buildTraceTransaction db hash (some cfg) = some (.error invalidTracerError, []) := by
  constructor
  · intro t
    cases t with
    | none => simp [tracerRejected]
    | some s =>
        simp [tracerRejected, isBuiltInTracer, isJSCustomTracer, strContains]
        tauto
  · intro db hash cfg h
    simp [buildTraceTransaction, h]

theorem tracer_validation_witness :
    buildTraceTransaction trivialDb 0 (some cfgBogus) = some (.error invalidTracerError, []) :=
  tracer_validation.2 trivialDb 0 cfgBogus (by decide)

/-- C7: whenever the formatter produces output, the entries correspond one to
one, in order, to exactly the raw steps that are not a `STOP` at pc 0 (scalar
fields preserved, `SHA3` renamed); with memory rendering disabled the
formatter always produces output. -/
theorem steps_to_entries_ordered :
    (∀ (cfg : traceConfig) (steps : List StructLog) (logs : List StructLogRes),
        buildStructLogs steps cfg = some logs →
        logs.map resProj = (steps.filter fun s => !isDroppedStep s).map stepProj) ∧
    ∀ (cfg : traceConfig) (steps : List StructLog), cfg.enableMemory = false →
      (buildStructLogs steps cfg).isSome := by
  constructor
  · intro cfg steps logs h
    exact buildStructLogsAux_proj cfg steps Memory.new logs h
  · intro cfg steps hen
    exact buildStructLogsAux_total_nomem cfg hen steps Memory.new

theorem steps_to_entries_ordered_witness :
    [addEntry].map resProj =
      ([stop0Step, addStep].filter fun s => !isDroppedStep s).map stepProj :=
  steps_to_entries_ordered.1 defaultTraceConfig [stop0Step, addStep] [addEntry] (by decide)

/-- C8: with `enableMemory=true`, a step reporting memory size 0 yields an
empty memory list for its entry and resets the accumulated image to the fresh
empty one, so subsequent steps rebuild memory from an empty buffer. -/
theorem zero_memory_size_resets :
    ∀ (cfg : traceConfig) (m : Memory) (s : StructLog) (e : StructLogRes) (m' : Memory),
      cfg.enableMemory = true → s.memorySize = 0 →
      stepStructLog cfg m s = some (some e, m') →
      e.memory = some [] ∧ m' = Memory.new := by
  intro cfg m s e m' hen hz h
  have hp := stepStructLog_some_entry cfg m s e m' h
  obtain ⟨-, -, -, -, -, -, -, -, -, hmp⟩ := processRetained_fields cfg m s _ e m' hp
  exact (memoryPart_enabled cfg m s e.memory m' hen hmp).1 hz

theorem zero_memory_size_resets_witness :
    zeroEntry.memory = some [] ∧ Memory.new = Memory.new :=
  zero_memory_size_resets cfgMem ⟨[7, 8]⟩ zeroStep zeroEntry Memory.new rfl rfl (by decide)

/-- C9: the storage field of a formatted step is present iff `disableStorage`
is false and the step carries at least one storage write, in which case it is
the hex-encoded 32-byte key/value mapping of every pair (keys and values both
64 hex characters); otherwise the field is entirely absent — never an empty
map. -/
theorem storage_field_presence :
    ∀ (cfg : traceConfig) (m : Memory) (s : StructLog) (e : StructLogRes) (m' : Memory),
      stepStructLog cfg m s = some (some e, m') →
      (e.storage = if cfg.disableStorage = false ∧ s.storage ≠ [] then
          some (s.storage.map fun kv => (hexEncode kv.1.bytes, hexEncode kv.2.bytes))
        else none) ∧
      e.storage ≠ some [] ∧
      ∀ ps, e.storage = some ps → ∀ p ∈ ps, p.1.length = 64 ∧ p.2.length = 64 := by
  intro cfg m s e m' h
  have hp := stepStructLog_some_entry cfg m s e m' h
  obtain ⟨-, -, -, -, -, -, -, -, hst, -⟩ := processRetained_fields cfg m s _ e m' hp
  rw [hst, storagePart_char]
  refine ⟨rfl, ?_, ?_⟩
  · split
    · next hc =>
        simp only [ne_eq, Option.some_inj]
        intro hmap
        exact hc.2 (List.map_eq_nil_iff.mp hmap)
    · simp
  · intro ps hps p hpm
    split at hps
    · next hc =>
        simp only [Option.some_inj] at hps
        subst hps
        simp only [List.mem_map] at hpm
        obtain ⟨kv, -, rfl⟩ := hpm
        constructor
        · rw [hexEncode_length]
          simp [Hash.bytes, kv.1.prop]
        · rw [hexEncode_length]
          simp [Hash.bytes, kv.2.prop]
    · cases hps

theorem storage_field_presence_witness :
    storEntry.storage ≠ some [] ∧
    (hexEncode (h32 1).bytes).length = 64 ∧ (hexEncode (h32 2).bytes).length = 64 := by
  have h := storage_field_presence defaultTraceConfig Memory.new storStep storEntry
    Memory.new (by decide)
  refine ⟨h.2.1, ?_⟩
  exact h.2.2 [(hexEncode (h32 1).bytes, hexEncode (h32 2).bytes)] rfl
    (hexEncode (h32 1).bytes, hexEncode (h32 2).bytes) (by simp)

/-- C10: the batch fan-out target URL is built from the inbound request's host
and path, and its scheme is the inbound URL scheme when non-empty, defaulting
to `https` when empty. -/
theorem batch_url_scheme_host_path :
    ∀ scheme host reqPath : String,
      (buildRpcURL scheme host reqPath).host = host ∧
      (buildRpcURL scheme host reqPath).path = reqPath ∧
      (scheme ≠ "" → (buildRpcURL scheme host reqPath).scheme = scheme) ∧
      (scheme = "" → (buildRpcURL scheme host reqPath).scheme = "https") := by
  intro sch h p
  refine ⟨rfl, rfl, ?_, ?_⟩
  · intro hne
    simp [buildRpcURL, hne]
  · intro he
    simp [buildRpcURL, he]

theorem batch_url_scheme_host_path_witness :
    (buildRpcURL "" "zkevm-rpc.example" "/").scheme = "https" ∧
    (buildRpcURL "http" "zkevm-rpc.example" "/").scheme = "http" :=
  ⟨(batch_url_scheme_host_path "" "zkevm-rpc.example" "/").2.2.2 rfl,
   (batch_url_scheme_host_path "http" "zkevm-rpc.example" "/").2.2.1 (by decide)⟩

end ZkevmDebug
